import Mathlib

/-!
# Verification of the peer session engine of `on9au/shitty-app`

A shallow embedding of the backend of the repository (Rust, Tauri) in Lean 4,
together with theorems settling the specification claims about it.

Conventions of the embedding:

* Rust `String` values are modelled as `RustString := List Nat`: the list of
  bytes of the UTF-8 representation.  All string literals occurring in the
  source are ASCII, so `str` (mapping each character to its code point) yields
  exactly their UTF-8 bytes.
* Machine integers (`u64`, `u32`, lengths) are modelled as `Nat`; where
  overflow or width matters the theorems carry explicit `< 2 ^ 64` bounds.
* `uuid::Uuid` is modelled as its 16-byte representation, `List Nat` of
  length 16 (the well-formedness predicates record the length).
* The `tokio` mutex-guarded `HashMap`s (`active_peers`, `active_transfers`)
  are modelled as functional maps `κ → Option ν`; `remove`/`insert`/`get_mut`
  become pointwise updates.
* Channel sends (`mpsc::Sender::send`, `backend_event_tx.send`) are modelled
  as always succeeding where the source unwraps them with `.expect(..)`
  (a failure there aborts the task); where the source branches on the send
  result (`handle_transmit_file`, whose claim mentions the branch) the result
  is an explicit environment parameter.
* File-system effects (`File::open`, `metadata`) are environment parameters
  holding the result the OS returned.
* `todo!()` (`PeerManager::handle_message`, chunk-transfer arms) is modelled
  by the dedicated result `StepResult.panicked`: the task aborts before any
  state change or any notification.
* `PeerManager::drop_peer` begins by locking `active_peers`
  (`peer_manager.rs:568`).  `handle_connect_response` calls it while the
  guard acquired at `connect_response.rs:21` is still alive; the
  `tokio::sync::Mutex` is not reentrant, so the task blocks forever there —
  modelled by `BlockingOut.deadlocked`, which records the registry as it
  stood (frozen, the guard is never released) and what was emitted before
  the blocked call.  Some drop branches of other handlers repeat this
  pattern; those branches are modelled as completed `drop_peer` calls, and
  no theorem in this file draws on them.
-/

/-- Rust `String`, as its UTF-8 bytes. -/
abbrev RustString := List Nat

/-- Embed an ASCII Lean string literal as a `RustString` (code points = UTF-8
bytes for ASCII text). -/
def str (s : String) : RustString := s.data.map Char.toNat

/-- `ToString` for `u64`/`usize` values interpolated by `format!`. -/
def natStr (n : Nat) : RustString := str (toString n)

/-- `uuid::Uuid`: the 16 bytes of the id.  Well-formed values have length 16. -/
abbrev Uuid := List Nat

/-- Code point of the lowercase hex digit for `n < 16` (`uuid`'s `to_string`
prints lowercase hex). -/
def hexDigit (n : Nat) : Nat := if n < 10 then 48 + n else 87 + n

/-- Two lowercase hex digits of one byte. -/
def byteHex (b : Nat) : List Nat := [hexDigit (b / 16 % 16), hexDigit (b % 16)]

/-- `Uuid::to_string()`: hyphenated lowercase hex, groups of 4-2-2-2-6 bytes
(code point 45 is `-`).  Returns `[]` on a malformed (non-16-byte) value,
which a real `Uuid` cannot be. -/
def uuidStr (u : Uuid) : RustString :=
  if u.length = 16 then
    (u.take 4).flatMap byteHex ++ [45] ++
    ((u.drop 4).take 2).flatMap byteHex ++ [45] ++
    ((u.drop 6).take 2).flatMap byteHex ++ [45] ++
    ((u.drop 8).take 2).flatMap byteHex ++ [45] ++
    (u.drop 10).flatMap byteHex
  else []

/-! ## Wire codec (`src/src-tauri/src/backend/protocol.rs`)

`BINCODE_CONFIG` is bincode v2 `standard()` `.with_little_endian()`
`.with_variable_int_encoding()`.  Under that configuration:

* an unsigned integer `n` is written as itself in one byte when `n < 251`,
  else as a marker byte `251`/`252`/`253` followed by the little-endian
  `u16`/`u32`/`u64`;
* an enum writes its `u32` variant index (variable-length) then the payload;
* a `String` / `Vec<u8>` / serde `bytes` writes its byte length
  (variable-length) then the raw bytes;
* `Option` writes a `0`/`1` byte then, if `1`, the payload;
* `bool` writes a `0`/`1` byte;
* `uuid::Uuid` (via `#[bincode(with_serde)]`, non-human-readable) writes its
  16 bytes with `serialize_bytes`, i.e. length 16 then the bytes.
-/

/-- Little-endian bytes of a `u16`. -/
def w16 (n : Nat) : List Nat := [n % 256, n / 256 % 256]

/-- Little-endian bytes of a `u32`. -/
def w32 (n : Nat) : List Nat :=
  [n % 256, n / 256 % 256, n / 65536 % 256, n / 16777216 % 256]

/-- Little-endian bytes of a `u64`. -/
def w64 (n : Nat) : List Nat :=
  [n % 256, n / 256 % 256, n / 65536 % 256, n / 16777216 % 256,
   n / 4294967296 % 256, n / 1099511627776 % 256,
   n / 281474976710656 % 256, n / 72057594037927936 % 256]

/-- bincode v2 variable-length encoding of an unsigned integer. -/
def encodeVarint (n : Nat) : List Nat :=
  if n < 251 then [n]
  else if n < 65536 then 251 :: w16 n
  else if n < 4294967296 then 252 :: w32 n
  else 253 :: w64 n

/-- Read one variable-length unsigned integer; return the value and the
unconsumed tail. -/
def rdVarint : List Nat → Option (Nat × List Nat)
  | [] => none
  | b :: r =>
    if b < 251 then some (b, r)
    else if b = 251 then
      match r with
      | b0 :: b1 :: r' => some (b0 + 256 * b1, r')
      | _ => none
    else if b = 252 then
      match r with
      | b0 :: b1 :: b2 :: b3 :: r' =>
        some (b0 + 256 * b1 + 65536 * b2 + 16777216 * b3, r')
      | _ => none
    else if b = 253 then
      match r with
      | b0 :: b1 :: b2 :: b3 :: b4 :: b5 :: b6 :: b7 :: r' =>
        some (b0 + 256 * b1 + 65536 * b2 + 16777216 * b3 + 4294967296 * b4 +
          1099511627776 * b5 + 281474976710656 * b6 +
          72057594037927936 * b7, r')
      | _ => none
    else none

/-- Length-prefixed byte string (`String` / `Vec<u8>` payload). -/
def encBytes (s : List Nat) : List Nat := encodeVarint s.length ++ s

/-- Read a length-prefixed byte string. -/
def rdBytes (l : List Nat) : Option (List Nat × List Nat) :=
  match rdVarint l with
  | some (n, r) => if n ≤ r.length then some (r.take n, r.drop n) else none
  | none => none

/-- `bool` encoding. -/
def encBool (b : Bool) : List Nat := [if b then 1 else 0]

/-- Read a `bool` (any byte other than 0/1 is a decode error). -/
def rdBool : List Nat → Option (Bool × List Nat)
  | 0 :: r => some (false, r)
  | 1 :: r => some (true, r)
  | _ => none

/-- `Option<String>` encoding. -/
def encOptBytes : Option RustString → List Nat
  | none => [0]
  | some s => 1 :: encBytes s

/-- Read an `Option<String>`. -/
def rdOptBytes : List Nat → Option (Option RustString × List Nat)
  | 0 :: r => some (none, r)
  | 1 :: r => (rdBytes r).map (fun p => (some p.1, p.2))
  | _ => none

/-- serde `serialize_bytes` of the 16 `Uuid` bytes. -/
def encUuid (u : Uuid) : List Nat := encodeVarint u.length ++ u

/-- Read a `Uuid`: length prefix (must be 16) then the 16 bytes. -/
def rdUuid (l : List Nat) : Option (Uuid × List Nat) :=
  match rdVarint l with
  | some (n, r) =>
    if n = 16 then if n ≤ r.length then some (r.take n, r.drop n) else none
    else none
  | none => none

namespace protocol

/-- Maximum message size for the protocol in bytes (10 MB),
`protocol.rs:30`. -/
def MAX_MESSAGE_SIZE : Nat := 1024 * 1024 * 10

/-- `protocol::ConnectionInfo` (the reserved ECDSA identity block is commented
out in the source). -/
structure ConnectionInfo where
  name : RustString
  backend_version : RustString
deriving DecidableEq

/-- `protocol::ConnectionPermit`. -/
inductive ConnectionPermit where
  | Permit (identitiy : ConnectionInfo)
  | Deny
deriving DecidableEq

/-- `protocol::ConnectionResponse`. -/
structure ConnectionResponse where
  permit : ConnectionPermit
  message : Option RustString
deriving DecidableEq

/-- `protocol::DisconnectRequest`. -/
structure DisconnectRequest where
  message : Option RustString
deriving DecidableEq

/-- `protocol::FileOffer`. -/
structure FileOffer where
  filename : RustString
  unique_id : Uuid
  size : Nat
  chunk_len : Nat
deriving DecidableEq

/-- `protocol::FileOfferResponse`. -/
structure FileOfferResponse where
  unique_id : Uuid
  accept : Bool
deriving DecidableEq

/-- `protocol::FileChunk`. -/
structure FileChunk where
  unique_id : Uuid
  chunk_id : Nat
  chunk_len : Nat
  data : List Nat
deriving DecidableEq

/-- `protocol::FileChunkAck`. -/
structure FileChunkAck where
  unique_id : Uuid
  chunk_id : Nat
deriving DecidableEq

/-- `protocol::FileDone`. -/
structure FileDone where
  unique_id : Uuid
  checksum : List Nat
deriving DecidableEq

/-- `protocol::FileDoneResult`. -/
structure FileDoneResult where
  unique_id : Uuid
  success : Bool
  message : Option RustString
deriving DecidableEq

/-- `protocol::Message`: the twelve wire variants, in declared tag order. -/
inductive Message where
  | KeepAlive
  | ConnectRequest (info : ConnectionInfo)
  | ConnectResponse (resp : ConnectionResponse)
  | DisconnectRequest (req : protocol.DisconnectRequest)
  | DisconnectAck
  | ImmediateConnectionClose (req : protocol.DisconnectRequest)
  | FileOfferRequest (offer : FileOffer)
  | FileOfferResponse (resp : protocol.FileOfferResponse)
  | FileChunk (chunk : protocol.FileChunk)
  | FileChunkAck (ack : protocol.FileChunkAck)
  | FileDone (done : protocol.FileDone)
  | FileDoneResult (res : protocol.FileDoneResult)
deriving DecidableEq

end protocol

open protocol

/-- Encode `protocol::ConnectionInfo`: the two strings in field order. -/
def encCI (ci : ConnectionInfo) : List Nat :=
  encBytes ci.name ++ encBytes ci.backend_version

/-- Read a `protocol::ConnectionInfo`. -/
def rdCI (l : List Nat) : Option (ConnectionInfo × List Nat) :=
  match rdBytes l with
  | some (name, r) =>
    match rdBytes r with
    | some (ver, r') => some (⟨name, ver⟩, r')
    | none => none
  | none => none

/-- Encode `protocol::ConnectionPermit` (enum: variant index then payload). -/
def encPermit : ConnectionPermit → List Nat
  | .Permit identitiy => encodeVarint 0 ++ encCI identitiy
  | .Deny => encodeVarint 1

/-- Read a `protocol::ConnectionPermit`. -/
def rdPermit (l : List Nat) : Option (ConnectionPermit × List Nat) :=
  match rdVarint l with
  | some (0, r) => (rdCI r).map (fun p => (.Permit p.1, p.2))
  | some (1, r) => some (.Deny, r)
  | _ => none

/-- Encode `protocol::ConnectionResponse`. -/
def encCR (cr : ConnectionResponse) : List Nat :=
  encPermit cr.permit ++ encOptBytes cr.message

/-- Read a `protocol::ConnectionResponse`. -/
def rdCR (l : List Nat) : Option (ConnectionResponse × List Nat) :=
  match rdPermit l with
  | some (permit, r) =>
    match rdOptBytes r with
    | some (msg, r') => some (⟨permit, msg⟩, r')
    | none => none
  | none => none

/-- Encode `protocol::DisconnectRequest`. -/
def encDR (dr : protocol.DisconnectRequest) : List Nat := encOptBytes dr.message

/-- Read a `protocol::DisconnectRequest`. -/
def rdDR (l : List Nat) : Option (protocol.DisconnectRequest × List Nat) :=
  (rdOptBytes l).map (fun p => (⟨p.1⟩, p.2))

/-- Encode `protocol::FileOffer`. -/
def encFO (fo : FileOffer) : List Nat :=
  encBytes fo.filename ++ encUuid fo.unique_id ++ encodeVarint fo.size ++
    encodeVarint fo.chunk_len

/-- Read a `protocol::FileOffer`. -/
def rdFO (l : List Nat) : Option (FileOffer × List Nat) :=
  match rdBytes l with
  | some (filename, r) =>
    match rdUuid r with
    | some (id, r') =>
      match rdVarint r' with
      | some (size, r'') =>
        match rdVarint r'' with
        | some (clen, r''') => some (⟨filename, id, size, clen⟩, r''')
        | none => none
      | none => none
    | none => none
  | none => none

/-- Encode `protocol::FileOfferResponse`. -/
def encFOR (fr : protocol.FileOfferResponse) : List Nat :=
  encUuid fr.unique_id ++ encBool fr.accept

/-- Read a `protocol::FileOfferResponse`. -/
def rdFOR (l : List Nat) : Option (protocol.FileOfferResponse × List Nat) :=
  match rdUuid l with
  | some (id, r) =>
    match rdBool r with
    | some (b, r') => some (⟨id, b⟩, r')
    | none => none
  | none => none

/-- Encode `protocol::FileChunk`. -/
def encFC (fc : protocol.FileChunk) : List Nat :=
  encUuid fc.unique_id ++ encodeVarint fc.chunk_id ++
    encodeVarint fc.chunk_len ++ encBytes fc.data

/-- Read a `protocol::FileChunk`. -/
def rdFC (l : List Nat) : Option (protocol.FileChunk × List Nat) :=
  match rdUuid l with
  | some (id, r) =>
    match rdVarint r with
    | some (cid, r') =>
      match rdVarint r' with
      | some (clen, r'') =>
        match rdBytes r'' with
        | some (data, r''') => some (⟨id, cid, clen, data⟩, r''')
        | none => none
      | none => none
    | none => none
  | none => none

/-- Encode `protocol::FileChunkAck`. -/
def encFCA (fa : protocol.FileChunkAck) : List Nat :=
  encUuid fa.unique_id ++ encodeVarint fa.chunk_id

/-- Read a `protocol::FileChunkAck`. -/
def rdFCA (l : List Nat) : Option (protocol.FileChunkAck × List Nat) :=
  match rdUuid l with
  | some (id, r) =>
    match rdVarint r with
    | some (cid, r') => some (⟨id, cid⟩, r')
    | none => none
  | none => none

/-- Encode `protocol::FileDone`. -/
def encFD (fd : protocol.FileDone) : List Nat :=
  encUuid fd.unique_id ++ encBytes fd.checksum

/-- Read a `protocol::FileDone`. -/
def rdFD (l : List Nat) : Option (protocol.FileDone × List Nat) :=
  match rdUuid l with
  | some (id, r) =>
    match rdBytes r with
    | some (ck, r') => some (⟨id, ck⟩, r')
    | none => none
  | none => none

/-- Encode `protocol::FileDoneResult`. -/
def encFDR (fr : protocol.FileDoneResult) : List Nat :=
  encUuid fr.unique_id ++ encBool fr.success ++ encOptBytes fr.message

/-- Read a `protocol::FileDoneResult`. -/
def rdFDR (l : List Nat) : Option (protocol.FileDoneResult × List Nat) :=
  match rdUuid l with
  | some (id, r) =>
    match rdBool r with
    | some (b, r') =>
      match rdOptBytes r' with
      | some (msg, r'') => some (⟨id, b, msg⟩, r'')
      | none => none
    | none => none
  | none => none

/-- `bincode::encode_to_vec(&message, *BINCODE_CONFIG)`: the variant index in
declared order, then the payload fields in order. -/
def encodeMessage : Message → List Nat
  | .KeepAlive => encodeVarint 0
  | .ConnectRequest info => encodeVarint 1 ++ encCI info
  | .ConnectResponse resp => encodeVarint 2 ++ encCR resp
  | .DisconnectRequest req => encodeVarint 3 ++ encDR req
  | .DisconnectAck => encodeVarint 4
  | .ImmediateConnectionClose req => encodeVarint 5 ++ encDR req
  | .FileOfferRequest offer => encodeVarint 6 ++ encFO offer
  | .FileOfferResponse resp => encodeVarint 7 ++ encFOR resp
  | .FileChunk chunk => encodeVarint 8 ++ encFC chunk
  | .FileChunkAck ack => encodeVarint 9 ++ encFCA ack
  | .FileDone done => encodeVarint 10 ++ encFD done
  | .FileDoneResult res => encodeVarint 11 ++ encFDR res

/-- Decode one `Message` from the front of `l`, returning the unconsumed
tail; `none` on any decode error (unknown variant tag, truncated input,
invalid `bool`/`Option` byte, wrong `Uuid` length). -/
def decodeMessage (l : List Nat) : Option (Message × List Nat) :=
  match rdVarint l with
  | some (0, r) => some (.KeepAlive, r)
  | some (1, r) => (rdCI r).map (fun p => (.ConnectRequest p.1, p.2))
  | some (2, r) => (rdCR r).map (fun p => (.ConnectResponse p.1, p.2))
  | some (3, r) => (rdDR r).map (fun p => (.DisconnectRequest p.1, p.2))
  | some (4, r) => some (.DisconnectAck, r)
  | some (5, r) => (rdDR r).map (fun p => (.ImmediateConnectionClose p.1, p.2))
  | some (6, r) => (rdFO r).map (fun p => (.FileOfferRequest p.1, p.2))
  | some (7, r) => (rdFOR r).map (fun p => (.FileOfferResponse p.1, p.2))
  | some (8, r) => (rdFC r).map (fun p => (.FileChunk p.1, p.2))
  | some (9, r) => (rdFCA r).map (fun p => (.FileChunkAck p.1, p.2))
  | some (10, r) => (rdFD r).map (fun p => (.FileDone p.1, p.2))
  | some (11, r) => (rdFDR r).map (fun p => (.FileDoneResult p.1, p.2))
  | _ => none

/-- `bincode::decode_from_slice(&buf, *BINCODE_CONFIG)`: the decoded message
and the number of bytes actually consumed (trailing bytes are not an error at
this level; `read_messages` compares the count against the frame length). -/
def decode_from_slice (l : List Nat) : Option (Message × Nat) :=
  (decodeMessage l).map (fun p => (p.1, l.length - p.2.length))

/-! ### Well-formedness of wire values

Bounds that every value built from real Rust data satisfies: `u64` fields and
byte lengths are below `2 ^ 64`, a `Uuid` has exactly 16 bytes. -/

/-- A `u64` value / `usize` length fits in 64 bits. -/
def u64wf (n : Nat) : Prop := n < 18446744073709551616

instance (n : Nat) : Decidable (u64wf n) := by unfold u64wf; infer_instance

/-- Well-formed `protocol::ConnectionInfo`. -/
def protocol.ConnectionInfo.wf (ci : ConnectionInfo) : Prop :=
  u64wf ci.name.length ∧ u64wf ci.backend_version.length

instance (ci : ConnectionInfo) : Decidable ci.wf := by
  unfold protocol.ConnectionInfo.wf; infer_instance

/-- Well-formed `protocol::ConnectionPermit`. -/
def protocol.ConnectionPermit.wf : ConnectionPermit → Prop
  | .Permit identitiy => identitiy.wf
  | .Deny => True

instance (p : ConnectionPermit) : Decidable p.wf := by
  unfold protocol.ConnectionPermit.wf; cases p <;> infer_instance

/-- Well-formed `Option<String>`. -/
def optWf : Option RustString → Prop
  | none => True
  | some s => u64wf s.length

instance (o : Option RustString) : Decidable (optWf o) := by
  unfold optWf; cases o <;> infer_instance

/-- Well-formed `Uuid`: exactly 16 bytes. -/
def Uuid.wf (u : Uuid) : Prop := u.length = 16

instance (u : Uuid) : Decidable u.wf := by unfold Uuid.wf; infer_instance

/-- Well-formed `protocol::Message`: every `u64` field, string length and
vector length fits in 64 bits and every `Uuid` has 16 bytes.  Every value the
Rust program can build satisfies this. -/
def protocol.Message.wf : Message → Prop
  | .KeepAlive => True
  | .ConnectRequest info => info.wf
  | .ConnectResponse resp => resp.permit.wf ∧ optWf resp.message
  | .DisconnectRequest req => optWf req.message
  | .DisconnectAck => True
  | .ImmediateConnectionClose req => optWf req.message
  | .FileOfferRequest offer =>
    u64wf offer.filename.length ∧ offer.unique_id.wf ∧ u64wf offer.size ∧
      u64wf offer.chunk_len
  | .FileOfferResponse resp => resp.unique_id.wf
  | .FileChunk chunk =>
    chunk.unique_id.wf ∧ u64wf chunk.chunk_id ∧ u64wf chunk.chunk_len ∧
      u64wf chunk.data.length
  | .FileChunkAck ack => ack.unique_id.wf ∧ u64wf ack.chunk_id
  | .FileDone done => done.unique_id.wf ∧ u64wf done.checksum.length
  | .FileDoneResult res => res.unique_id.wf ∧ optWf res.message

instance (m : Message) : Decidable m.wf := by
  unfold protocol.Message.wf; cases m <;> infer_instance

/-! ### Round-trip lemmas for the codec components -/

theorem rdVarint_enc (n : Nat) (t : List Nat) (h : u64wf n) :
    rdVarint (encodeVarint n ++ t) = some (n, t) := by
  unfold u64wf at h
  unfold encodeVarint rdVarint
  by_cases h1 : n < 251
  · simp [h1]
  · by_cases h2 : n < 65536
    · simp only [h1, if_false, h2, if_true, w16, List.cons_append]
      norm_num
      omega
    · by_cases h3 : n < 4294967296
      · simp only [h1, if_false, h2, h3, if_true, w32, List.cons_append]
        norm_num
        omega
      · simp only [h1, if_false, h2, h3, w64, List.cons_append]
        norm_num
        omega

theorem rdBytes_enc (s t : List Nat) (h : u64wf s.length) :
    rdBytes (encBytes s ++ t) = some (s, t) := by
  unfold encBytes rdBytes
  rw [List.append_assoc, rdVarint_enc s.length (s ++ t) h]
  simp [List.take_left, List.drop_left]

theorem rdBool_enc (b : Bool) (t : List Nat) :
    rdBool (encBool b ++ t) = some (b, t) := by
  cases b <;> simp [encBool, rdBool]

theorem rdOptBytes_enc (o : Option RustString) (t : List Nat) (h : optWf o) :
    rdOptBytes (encOptBytes o ++ t) = some (o, t) := by
  cases o with
  | none => simp [encOptBytes, rdOptBytes]
  | some s =>
    unfold optWf at h
    simp [encOptBytes, rdOptBytes, rdBytes_enc s t h]

theorem rdUuid_enc (u : Uuid) (t : List Nat) (h : u.wf) :
    rdUuid (encUuid u ++ t) = some (u, t) := by
  unfold Uuid.wf at h
  unfold encUuid rdUuid
  rw [List.append_assoc, rdVarint_enc u.length (u ++ t) (by unfold u64wf; omega)]
  dsimp only
  rw [if_pos h, if_pos (by rw [List.length_append, h]; omega),
    show (u ++ t).take u.length = u from List.take_left u t,
    show (u ++ t).drop u.length = t from List.drop_left u t]

theorem rdCI_enc (ci : ConnectionInfo) (t : List Nat) (h : ci.wf) :
    rdCI (encCI ci ++ t) = some (ci, t) := by
  obtain ⟨h1, h2⟩ := h
  unfold encCI rdCI
  rw [List.append_assoc, rdBytes_enc ci.name _ h1]
  dsimp only
  rw [rdBytes_enc ci.backend_version t h2]

theorem rdPermit_enc (p : ConnectionPermit) (t : List Nat) (h : p.wf) :
    rdPermit (encPermit p ++ t) = some (p, t) := by
  cases p with
  | Permit identitiy =>
    unfold encPermit rdPermit
    rw [List.append_assoc, rdVarint_enc 0 _ (by unfold u64wf; omega)]
    dsimp only
    rw [rdCI_enc identitiy t h]
    rfl
  | Deny =>
    unfold encPermit rdPermit
    rw [rdVarint_enc 1 t (by unfold u64wf; omega)]

theorem rdCR_enc (cr : ConnectionResponse) (t : List Nat)
    (h1 : cr.permit.wf) (h2 : optWf cr.message) :
    rdCR (encCR cr ++ t) = some (cr, t) := by
  unfold encCR rdCR
  rw [List.append_assoc, rdPermit_enc cr.permit _ h1]
  dsimp only
  rw [rdOptBytes_enc cr.message t h2]

theorem rdDR_enc (dr : protocol.DisconnectRequest) (t : List Nat)
    (h : optWf dr.message) : rdDR (encDR dr ++ t) = some (dr, t) := by
  unfold encDR rdDR
  rw [rdOptBytes_enc dr.message t h]
  rfl

theorem rdFO_enc (fo : FileOffer) (t : List Nat) (h1 : u64wf fo.filename.length)
    (h2 : fo.unique_id.wf) (h3 : u64wf fo.size) (h4 : u64wf fo.chunk_len) :
    rdFO (encFO fo ++ t) = some (fo, t) := by
  unfold encFO rdFO
  rw [List.append_assoc, List.append_assoc, List.append_assoc,
    rdBytes_enc fo.filename _ h1]
  dsimp only
  rw [rdUuid_enc fo.unique_id _ h2]
  dsimp only
  rw [rdVarint_enc fo.size _ h3]
  dsimp only
  rw [rdVarint_enc fo.chunk_len t h4]

theorem rdFOR_enc (fr : protocol.FileOfferResponse) (t : List Nat)
    (h : fr.unique_id.wf) : rdFOR (encFOR fr ++ t) = some (fr, t) := by
  unfold encFOR rdFOR
  rw [List.append_assoc, rdUuid_enc fr.unique_id _ h]
  dsimp only
  rw [rdBool_enc fr.accept t]

theorem rdFC_enc (fc : protocol.FileChunk) (t : List Nat) (h1 : fc.unique_id.wf)
    (h2 : u64wf fc.chunk_id) (h3 : u64wf fc.chunk_len)
    (h4 : u64wf fc.data.length) : rdFC (encFC fc ++ t) = some (fc, t) := by
  unfold encFC rdFC
  rw [List.append_assoc, List.append_assoc, List.append_assoc,
    rdUuid_enc fc.unique_id _ h1]
  dsimp only
  rw [rdVarint_enc fc.chunk_id _ h2]
  dsimp only
  rw [rdVarint_enc fc.chunk_len _ h3]
  dsimp only
  rw [rdBytes_enc fc.data t h4]

theorem rdFCA_enc (fa : protocol.FileChunkAck) (t : List Nat)
    (h1 : fa.unique_id.wf) (h2 : u64wf fa.chunk_id) :
    rdFCA (encFCA fa ++ t) = some (fa, t) := by
  unfold encFCA rdFCA
  rw [List.append_assoc, rdUuid_enc fa.unique_id _ h1]
  dsimp only
  rw [rdVarint_enc fa.chunk_id t h2]

theorem rdFD_enc (fd : protocol.FileDone) (t : List Nat) (h1 : fd.unique_id.wf)
    (h2 : u64wf fd.checksum.length) : rdFD (encFD fd ++ t) = some (fd, t) := by
  unfold encFD rdFD
  rw [List.append_assoc, rdUuid_enc fd.unique_id _ h1]
  dsimp only
  rw [rdBytes_enc fd.checksum t h2]

theorem rdFDR_enc (fr : protocol.FileDoneResult) (t : List Nat)
    (h1 : fr.unique_id.wf) (h2 : optWf fr.message) :
    rdFDR (encFDR fr ++ t) = some (fr, t) := by
  unfold encFDR rdFDR
  rw [List.append_assoc, List.append_assoc, rdUuid_enc fr.unique_id _ h1]
  dsimp only
  rw [rdBool_enc fr.success _]
  dsimp only
  rw [rdOptBytes_enc fr.message t h2]

/-- Master round-trip: decoding an encoded well-formed message from the front
of any byte stream returns the message and consumes exactly its encoding. -/
theorem decodeMessage_encodeMessage (m : Message) (h : m.wf) (t : List Nat) :
    decodeMessage (encodeMessage m ++ t) = some (m, t) := by
  have hv : ∀ k : Nat, k < 251 → u64wf k := by intro k hk; unfold u64wf; omega
  cases m with
  | KeepAlive =>
    unfold encodeMessage decodeMessage
    rw [rdVarint_enc 0 t (hv 0 (by omega))]
  | ConnectRequest info =>
    unfold encodeMessage decodeMessage
    rw [List.append_assoc, rdVarint_enc 1 _ (hv 1 (by omega))]
    dsimp only
    rw [rdCI_enc info t h]
    rfl
  | ConnectResponse resp =>
    unfold encodeMessage decodeMessage
    rw [List.append_assoc, rdVarint_enc 2 _ (hv 2 (by omega))]
    dsimp only
    rw [rdCR_enc resp t h.1 h.2]
    rfl
  | DisconnectRequest req =>
    unfold encodeMessage decodeMessage
    rw [List.append_assoc, rdVarint_enc 3 _ (hv 3 (by omega))]
    dsimp only
    rw [rdDR_enc req t h]
    rfl
  | DisconnectAck =>
    unfold encodeMessage decodeMessage
    rw [rdVarint_enc 4 t (hv 4 (by omega))]
  | ImmediateConnectionClose req =>
    unfold encodeMessage decodeMessage
    rw [List.append_assoc, rdVarint_enc 5 _ (hv 5 (by omega))]
    dsimp only
    rw [rdDR_enc req t h]
    rfl
  | FileOfferRequest offer =>
    unfold encodeMessage decodeMessage
    rw [List.append_assoc, rdVarint_enc 6 _ (hv 6 (by omega))]
    dsimp only
    rw [rdFO_enc offer t h.1 h.2.1 h.2.2.1 h.2.2.2]
    rfl
  | FileOfferResponse resp =>
    unfold encodeMessage decodeMessage
    rw [List.append_assoc, rdVarint_enc 7 _ (hv 7 (by omega))]
    dsimp only
    rw [rdFOR_enc resp t h]
    rfl
  | FileChunk chunk =>
    unfold encodeMessage decodeMessage
    rw [List.append_assoc, rdVarint_enc 8 _ (hv 8 (by omega))]
    dsimp only
    rw [rdFC_enc chunk t h.1 h.2.1 h.2.2.1 h.2.2.2]
    rfl
  | FileChunkAck ack =>
    unfold encodeMessage decodeMessage
    rw [List.append_assoc, rdVarint_enc 9 _ (hv 9 (by omega))]
    dsimp only
    rw [rdFCA_enc ack t h.1 h.2]
    rfl
  | FileDone done =>
    unfold encodeMessage decodeMessage
    rw [List.append_assoc, rdVarint_enc 10 _ (hv 10 (by omega))]
    dsimp only
    rw [rdFD_enc done t h.1 h.2]
    rfl
  | FileDoneResult res =>
    unfold encodeMessage decodeMessage
    rw [List.append_assoc, rdVarint_enc 11 _ (hv 11 (by omega))]
    dsimp only
    rw [rdFDR_enc res t h.1 h.2]
    rfl

/-- `decode_from_slice` on exactly one encoded message: the original message,
consuming the whole slice. -/
theorem decode_from_slice_encodeMessage (m : Message) (h : m.wf) :
    decode_from_slice (encodeMessage m) = some (m, (encodeMessage m).length) := by
  unfold decode_from_slice
  have := decodeMessage_encodeMessage m h []
  rw [List.append_nil] at this
  rw [this]
  simp

/-! ## Reader loop, one inbound frame
(`PeerManager::read_messages`, `peer_manager.rs:389-516`)

After `read_exact` has filled the 4-byte header, `len` is the big-endian
header value and (after the size check passes) `buf` holds exactly `len`
payload bytes.  The outcome of processing one frame is either a `drop_peer`
call with a diagnostic reason, or dispatch to `handle_message`. -/

/-- Outcome of one frame in the reader loop. -/
inductive FrameStep where
  | dropped (reason : Option RustString)
  | dispatched (m : Message)
deriving DecidableEq

/-- One iteration of the `'recv` loop body after a complete header and
payload read, `peer_manager.rs:396-475`.  The `len > MAX_MESSAGE_SIZE` check
runs before the payload buffer is allocated; `buf` is the `len`-byte payload
subsequently read. -/
def process_inbound_frame (len : Nat) (buf : List Nat) : FrameStep :=
  if len > MAX_MESSAGE_SIZE then
    .dropped (some (str "Peer sent a message larger than the maximum size of " ++
      natStr MAX_MESSAGE_SIZE ++ str " bytes"))
  else
    match decode_from_slice buf with
    | some (message, actual_len) =>
      if actual_len ≠ len then
        .dropped (some (str "Peer sent a message with length " ++ natStr len ++
          str " bytes, but the actual length is " ++ natStr actual_len ++
          str " bytes"))
      else
        .dispatched message
    | none =>
      .dropped (some (str "Failed to deserialize peer message: " ++
        str "decode error"))

/-! ## Data model
(`peer_manager.rs`, `js_api/backend_event.rs`, `js_api/frontend_event.rs`)

The cryptographic identity (`ecdsa_public_key` / `identitiy`) is commented
out throughout `peer_manager.rs` and `protocol.rs` and is omitted here. -/

/-- `std::net::SocketAddr`, abstracted to its textual IP and port.
`a.ip().to_string()` is `a.ip`; `a.to_string()` appends `:port`. -/
structure SocketAddr where
  ip : RustString
  port : Nat
deriving DecidableEq

/-- `SocketAddr::to_string()` (IPv4 form `ip:port`). -/
def SocketAddr.toStr (a : SocketAddr) : RustString :=
  a.ip ++ str ":" ++ natStr a.port

/-- `peer_manager::PeerInfo`. -/
structure PeerInfo where
  name : RustString
  backend_version : RustString
deriving DecidableEq

/-- `From<protocol::ConnectionInfo> for PeerInfo` (`protocol.rs:79-87`). -/
def PeerInfo.ofConnectionInfo (info : ConnectionInfo) : PeerInfo :=
  { name := info.name, backend_version := info.backend_version }

/-- `peer_manager::PeerState`. -/
inductive PeerState where
  | Connected (peer_info : Option PeerInfo)
  | Authenticated (peer_info : PeerInfo)
  | Disconnecting (reason : Option RustString) (peer_info : PeerInfo)
deriving DecidableEq

/-- `peer_manager::Peer` (the `tx` outbox handle is modelled by the `sent`
output of each handler rather than stored). -/
structure Peer where
  addr : SocketAddr
  state : PeerState
deriving DecidableEq

/-- An open file handle (`Arc<tokio::fs::File>`), opaque. -/
abbrev FileHandle := Unit

/-- `peer_manager::FileTransferDirection`.  `Sending` carries the source
file path. -/
inductive FileTransferDirection where
  | Sending (file_path : RustString)
  | Receiving
deriving DecidableEq

/-- `peer_manager::FileTransferStatus`. -/
inductive FileTransferStatus where
  | WaitingForPeerResponse
  | InProgress (file_handle : FileHandle)
  | Completed
  | Cancelled
  | Rejected
  | Error (msg : RustString)
deriving DecidableEq

/-- `peer_manager::FileTransferState`. -/
structure FileTransferState where
  unique_id : Uuid
  peer_addr : SocketAddr
  direction : FileTransferDirection
  filename : RustString
  total_size : Nat
  bytes_transferred : Nat
  chunk_len : Nat
  status : FileTransferStatus
deriving DecidableEq

/-- The two mutex-guarded maps of `PeerManager` (`active_peers`,
`active_transfers`), as functional maps. -/
structure PMState where
  active_peers : SocketAddr → Option Peer
  active_transfers : Uuid → Option FileTransferState

/-- `HashMap::remove`. -/
def mapRemove {κ ν : Type} [DecidableEq κ] (m : κ → Option ν) (k : κ) :
    κ → Option ν :=
  fun x => if x = k then none else m x

/-- `HashMap::insert` (replacing any previous value). -/
def mapInsert {κ ν : Type} [DecidableEq κ] (m : κ → Option ν) (k : κ) (v : ν) :
    κ → Option ν :=
  fun x => if x = k then some v else m x

/-- `HashMap::get_mut` followed by a mutation: update the entry under `k`
if present, otherwise do nothing. -/
def mapAdjust {κ ν : Type} [DecidableEq κ] (m : κ → Option ν) (k : κ)
    (f : ν → ν) : κ → Option ν :=
  fun x => if x = k then (m k).map f else m x

namespace backend_event

/-- `js_api::backend_event::ConnectionInfo` (the base64 `identitiy` string is
fed from commented-out code and is omitted). -/
structure ConnectionInfo where
  name : RustString
  ip : RustString
  backend_version : RustString
deriving DecidableEq

/-- `js_api::backend_event::ConnectionRequestResponse`. -/
structure ConnectionRequestResponse where
  accept : Bool
  ip : RustString
  reason : Option RustString
deriving DecidableEq

/-- `js_api::backend_event::ConnectionCloseOrBroken`. -/
structure ConnectionCloseOrBroken where
  connection_info : ConnectionInfo
  message : Option RustString
deriving DecidableEq

/-- `js_api::backend_event::FileOffer` (`unique_id` is sent as the
`to_string()` of the transfer's `Uuid`, `file_offer_request.rs:46`). -/
structure FileOffer where
  peer : ConnectionInfo
  filename : RustString
  unique_id : RustString
  size : Nat
deriving DecidableEq

end backend_event

namespace frontend_event

/-- `js_api::frontend_event::BackendStartupConfig`. -/
structure BackendStartupConfig where
  bind_addr : RustString
deriving DecidableEq

/-- `js_api::frontend_event::TransmitFile`.  The handler
(`transmit_file.rs:24`) reads an `ip` field in addition to the path and
filename. -/
structure TransmitFile where
  ip : RustString
  path : RustString
  filename : RustString
deriving DecidableEq

/-- `js_api::frontend_event::FrontendEvent` (payloads of the variants not
referenced by any embedded handler are reduced to the fields those handlers
use). -/
inductive FrontendEvent where
  | ConnectRequest (ip : RustString)
  | DisconnectRequest (ip : RustString) (message : Option RustString)
  | ConnectionRequestResponse (ip : RustString) (accept : Bool)
      (message : Option RustString)
  | TransmitFile (t : frontend_event.TransmitFile)
  | FileOfferResponse (unique_id : RustString) (accept : Bool)
  | CancelFileTransfer (unique_id : RustString) (message : Option RustString)
  | FrontendReady (cfg : BackendStartupConfig)
  | Shutdown
deriving DecidableEq

end frontend_event

open backend_event frontend_event

/-- `js_api::backend_event::BackendEvent`, restricted to the variants the
embedded code emits. -/
inductive BackendEvent where
  | BackendFatal (message : RustString)
  | BackendReady (version : RustString)
  | BackendShutdown
  | BadFrontendEvent (event : FrontendEvent) (error : RustString)
  | ConnectRequest (info : backend_event.ConnectionInfo)
  | ConnectionRequestResponse (r : backend_event.ConnectionRequestResponse)
  | ConnectionClose (c : ConnectionCloseOrBroken)
  | ConnectionBroken (c : ConnectionCloseOrBroken)
  | FileOffer (f : backend_event.FileOffer)
deriving DecidableEq

/-- `PeerInfo::into_connection_info` (`peer_manager.rs:152-161`): the
frontend-facing info, with `ip` the peer address's IP text. -/
def PeerInfo.into_connection_info (info : PeerInfo) (peer_addr : SocketAddr) :
    backend_event.ConnectionInfo :=
  { name := info.name, ip := peer_addr.ip, backend_version := info.backend_version }

/-- Result of one (non-panicking) handler run: the new map state, the
backend events pushed to `backend_event_tx` in order, and the wire messages
handed to peer outboxes (`peer.tx.send`) in order. -/
structure HandlerOut where
  state : PMState
  events : List BackendEvent
  sent : List (SocketAddr × Message)

/-! ## `PeerManager::drop_peer` (`peer_manager.rs:567-616`) -/

/-- `drop_peer(peer_addr, message)`: remove the peer from `active_peers`;
if the removed peer was `Authenticated` emit `ConnectionBroken` with the
override message, if `Disconnecting` emit `ConnectionClose` with the override
message if present and otherwise the stored reason, if `Connected` emit
nothing; a missing entry changes nothing and emits nothing. -/
def drop_peer (s : PMState) (peer_addr : SocketAddr) (message : Option RustString) :
    PMState × List BackendEvent :=
  let removed_peer := s.active_peers peer_addr
  let s' : PMState := { s with active_peers := mapRemove s.active_peers peer_addr }
  match removed_peer with
  | some removed =>
    match removed.state with
    | .Authenticated peer_info =>
      (s', [.ConnectionBroken
        { connection_info :=
            { name := peer_info.name, ip := peer_addr.ip,
              backend_version := peer_info.backend_version },
          message := message }])
    | .Disconnecting reason peer_info =>
      (s', [.ConnectionClose
        { connection_info :=
            { name := peer_info.name, ip := peer_addr.ip,
              backend_version := peer_info.backend_version },
          message := match message with
            | some m => some m
            | none => reason }])
    | .Connected _ => (s', [])
  | none => (s', [])

/-! ## Peer-message handlers (`backend/message_handlers/*.rs`) -/

/-- `handle_keep_alive` (`keep_alive.rs:9-22`): after the 10 s delay, reply
`KeepAlive` if the peer is still present (the delay itself is timing and is
not modelled). -/
def handle_keep_alive (s : PMState) (peer_addr : SocketAddr) : HandlerOut :=
  match s.active_peers peer_addr with
  | some _ => ⟨s, [], [(peer_addr, .KeepAlive)]⟩
  | none => ⟨s, [], []⟩

/-- `handle_connect_request` (`message_handlers/connect_request.rs:17-65`):
unconditionally notify the frontend, then — whatever the current state — set
the peer's state to `Connected` with the received info, then send a
`KeepAlive` if the peer is present.  (The source reads the commented-out
identity field here; the identity is omitted, see above.) -/
def handle_connect_request (s : PMState) (connection_info : protocol.ConnectionInfo)
    (peer_addr : SocketAddr) : HandlerOut :=
  let ev : BackendEvent := .ConnectRequest
    { name := connection_info.name, ip := peer_addr.toStr,
      backend_version := connection_info.backend_version }
  let peers' := mapAdjust s.active_peers peer_addr (fun p =>
    { p with state := .Connected (some (PeerInfo.ofConnectionInfo connection_info)) })
  let sent : List (SocketAddr × Message) :=
    match s.active_peers peer_addr with
    | some _ => [(peer_addr, .KeepAlive)]
    | none => []
  ⟨{ s with active_peers := peers' }, [ev], sent⟩

/-- Result of a handler that can block forever: `ok` is a completed run;
`deadlocked` means the handler called `drop_peer` while still holding the
`active_peers` mutex guard, so the `lock().await` at the top of `drop_peer`
(`peer_manager.rs:568`) never returns.  `state` is the registry and transfer
state left behind — frozen, since the guard is never released — and
`events`/`sent` are what was emitted before the blocked call. -/
inductive BlockingOut where
  | ok (out : HandlerOut)
  | deadlocked (state : PMState) (events : List BackendEvent)
      (sent : List (SocketAddr × Message))

/-- `handle_connect_response` (`message_handlers/connect_response.rs:12-85`).
The `active_peers` guard acquired at line 21 lives to the end of the body.
`Permit`: any `Connected` state (with or without stored info) becomes
`Authenticated` with the identity carried in the message and the frontend is
notified `accept = true`; in the other states the handler calls `drop_peer`
(line 52), which re-locks `active_peers` under the held guard — the task
deadlocks, the peer is never removed and nothing is emitted.  `Deny`:
notify `accept = false` and send `DisconnectAck` (these complete), then the
`drop_peer` at line 81 deadlocks the same way. -/
def handle_connect_response (s : PMState) (connect_response : ConnectionResponse)
    (peer_addr : SocketAddr) : BlockingOut :=
  match s.active_peers peer_addr with
  | none => .ok ⟨s, [], []⟩
  | some peer =>
    match connect_response.permit with
    | .Permit identitiy =>
      match peer.state with
      | .Connected _ =>
        let peers' := mapAdjust s.active_peers peer_addr (fun p =>
          { p with state := .Authenticated (PeerInfo.ofConnectionInfo identitiy) })
        .ok ⟨{ s with active_peers := peers' },
          [.ConnectionRequestResponse
            { accept := true, ip := peer_addr.toStr, reason := none }], []⟩
      | _ => .deadlocked s [] []
    | .Deny =>
      let ev : BackendEvent := .ConnectionRequestResponse
        { accept := false, ip := peer_addr.toStr,
          reason := connect_response.message }
      .deadlocked s [ev] [(peer_addr, .DisconnectAck)]

/-- `handle_disconnect_request` (`message_handlers/disconnect_request.rs`):
`Connected(info)`/`Authenticated` transition to `Disconnecting` with the
request's message, reply `DisconnectAck` and `drop_peer`; `Connected(none)`
drops with a diagnostic; `Disconnecting` drops.  The `DisconnectAck` send is
modelled as succeeding (the `Err` branch only changes the drop reason). -/
def handle_disconnect_request (s : PMState)
    (disconnect_request : protocol.DisconnectRequest) (peer_addr : SocketAddr) :
    HandlerOut :=
  match s.active_peers peer_addr with
  | none => ⟨s, [], []⟩
  | some peer =>
    match peer.state with
    | .Connected peer_info =>
      match peer_info with
      | some pi =>
        let peers1 := mapAdjust s.active_peers peer_addr (fun p =>
          { p with state := .Disconnecting disconnect_request.message pi })
        let s1 : PMState := { s with active_peers := peers1 }
        let (s', evs) := drop_peer s1 peer_addr none
        ⟨s', evs, [(peer_addr, .DisconnectAck)]⟩
      | none =>
        let (s', evs) := drop_peer s peer_addr
          (some (str "Peer info not set when handling DisconnectRequest"))
        ⟨s', evs, []⟩
    | .Disconnecting _ _ =>
      let (s', evs) := drop_peer s peer_addr none
      ⟨s', evs, []⟩
    | .Authenticated pi =>
      let peers1 := mapAdjust s.active_peers peer_addr (fun p =>
        { p with state := .Disconnecting disconnect_request.message pi })
      let s1 : PMState := { s with active_peers := peers1 }
      let (s', evs) := drop_peer s1 peer_addr none
      ⟨s', evs, [(peer_addr, .DisconnectAck)]⟩

/-- `handle_disconnect_ack` (`disconnect_ack.rs:9-13`): `drop_peer` with no
override reason. -/
def handle_disconnect_ack (s : PMState) (peer_addr : SocketAddr) : HandlerOut :=
  let (s', evs) := drop_peer s peer_addr none
  ⟨s', evs, []⟩

/-- `handle_immediate_connection_close`
(`immediate_connection_close.rs:9-64`): like `handle_disconnect_request` but
with no `DisconnectAck` reply. -/
def handle_immediate_connection_close (s : PMState)
    (disconnect_request : protocol.DisconnectRequest) (peer_addr : SocketAddr) :
    HandlerOut :=
  match s.active_peers peer_addr with
  | none => ⟨s, [], []⟩
  | some peer =>
    match peer.state with
    | .Connected peer_info =>
      match peer_info with
      | some pi =>
        let peers1 := mapAdjust s.active_peers peer_addr (fun p =>
          { p with state := .Disconnecting disconnect_request.message pi })
        let s1 : PMState := { s with active_peers := peers1 }
        let (s', evs) := drop_peer s1 peer_addr none
        ⟨s', evs, []⟩
      | none =>
        let (s', evs) := drop_peer s peer_addr
          (some (str "Peer info not set when handling DisconnectRequest"))
        ⟨s', evs, []⟩
    | .Disconnecting _ _ =>
      let (s', evs) := drop_peer s peer_addr none
      ⟨s', evs, []⟩
    | .Authenticated pi =>
      let peers1 := mapAdjust s.active_peers peer_addr (fun p =>
        { p with state := .Disconnecting disconnect_request.message pi })
      let s1 : PMState := { s with active_peers := peers1 }
      let (s', evs) := drop_peer s1 peer_addr none
      ⟨s', evs, []⟩

/-- `handle_file_offer_request` (`file_offer_request.rs:14-74`): from an
`Authenticated` peer, notify the frontend with a `FileOffer` and insert a
receiving transfer record — whose status the source sets to `InProgress`
(written there without the `file_handle` field its declaration requires);
from a `Connected` or `Disconnecting` peer, `drop_peer`; from an absent
peer, nothing. -/
def handle_file_offer_request (s : PMState) (file_offer : protocol.FileOffer)
    (peer_addr : SocketAddr) : HandlerOut :=
  match s.active_peers peer_addr with
  | none => ⟨s, [], []⟩
  | some peer =>
    match peer.state with
    | .Connected _ =>
      let (s', evs) := drop_peer s peer_addr
        (some (str "Peer sent a file offer request before authentication"))
      ⟨s', evs, []⟩
    | .Authenticated peer_info =>
      let ev : BackendEvent := .FileOffer
        { peer := peer_info.into_connection_info peer_addr,
          filename := file_offer.filename,
          unique_id := uuidStr file_offer.unique_id,
          size := file_offer.size }
      let record : FileTransferState :=
        { unique_id := file_offer.unique_id,
          peer_addr := peer_addr,
          direction := .Receiving,
          filename := file_offer.filename,
          total_size := file_offer.size,
          bytes_transferred := 0,
          chunk_len := file_offer.chunk_len,
          status := .InProgress () }
      ⟨{ s with active_transfers :=
          mapInsert s.active_transfers file_offer.unique_id record },
        [ev], []⟩
    | .Disconnecting _ _ =>
      let (s', evs) := drop_peer s peer_addr none
      ⟨s', evs, []⟩

/-- `handle_file_offer_response` (`message_handlers/file_offer_response.rs`):
from a `Connected` peer, drop; from `Authenticated`, update the record under
the id (sending + accept: open the source file — modelled as succeeding, the
source panics on failure — and set `InProgress`; sending + reject: set
`Rejected`; receiving: drop the peer and set `Error`); from `Disconnecting`,
drop. -/
def handle_file_offer_response (s : PMState)
    (file_offer_response : protocol.FileOfferResponse) (peer_addr : SocketAddr) :
    HandlerOut :=
  match s.active_peers peer_addr with
  | none => ⟨s, [], []⟩
  | some peer =>
    match peer.state with
    | .Connected _ =>
      let (s', evs) := drop_peer s peer_addr
        (some (str "Peer sent a file offer response before authentication"))
      ⟨s', evs, []⟩
    | .Authenticated _ =>
      match s.active_transfers file_offer_response.unique_id with
      | none => ⟨s, [], []⟩
      | some transfer_state =>
        match transfer_state.direction with
        | .Sending _ =>
          if file_offer_response.accept then
            let transfers1 := mapAdjust s.active_transfers
              file_offer_response.unique_id
              (fun t => { t with status := .InProgress () })
            ⟨{ s with active_transfers := transfers1 }, [], []⟩
          else
            let transfers1 := mapAdjust s.active_transfers
              file_offer_response.unique_id
              (fun t => { t with status := .Rejected })
            ⟨{ s with active_transfers := transfers1 }, [], []⟩
        | .Receiving =>
          let (s', evs) := drop_peer s peer_addr
            (some (str "Cannot accept file response while receiving"))
          let errStatus : FileTransferStatus :=
            .Error (str "Cannot accept file response while receiving")
          let transfers1 := mapAdjust s'.active_transfers
            file_offer_response.unique_id
            (fun t => { t with status := errStatus })
          ⟨{ s' with active_transfers := transfers1 }, evs, []⟩
    | .Disconnecting _ _ =>
      let (s', evs) := drop_peer s peer_addr none
      ⟨s', evs, []⟩

/-- Result of `handle_message`: a completed handler run; or the task aborted
at a `todo!()` before any state change, any `drop_peer` call and any
notification; or the dispatched handler deadlocked on the registry mutex
after emitting `events` and `sent`, leaving the maps as `state`. -/
inductive StepResult where
  | ok (out : HandlerOut)
  | panicked
  | deadlocked (state : PMState) (events : List BackendEvent)
      (sent : List (SocketAddr × Message))

/-- `PeerManager::handle_message` (`peer_manager.rs:520-557`): the dispatch
over the twelve variants; the four chunk-transfer arms are `todo!()`. -/
def handle_message (s : PMState) (message : Message) (peer_addr : SocketAddr) :
    StepResult :=
  match message with
  | .KeepAlive => .ok (handle_keep_alive s peer_addr)
  | .ConnectRequest connection_info =>
    .ok (handle_connect_request s connection_info peer_addr)
  | .ConnectResponse connection_response =>
    match handle_connect_response s connection_response peer_addr with
    | .ok out => .ok out
    | .deadlocked st evs snt => .deadlocked st evs snt
  | .DisconnectRequest disconnect_request =>
    .ok (handle_disconnect_request s disconnect_request peer_addr)
  | .DisconnectAck => .ok (handle_disconnect_ack s peer_addr)
  | .ImmediateConnectionClose disconnect_request =>
    .ok (handle_immediate_connection_close s disconnect_request peer_addr)
  | .FileOfferRequest file_offer =>
    .ok (handle_file_offer_request s file_offer peer_addr)
  | .FileOfferResponse file_offer_response =>
    .ok (handle_file_offer_response s file_offer_response peer_addr)
  | .FileChunk _ => .panicked
  | .FileChunkAck _ => .panicked
  | .FileDone _ => .panicked
  | .FileDoneResult _ => .panicked

/-! ## Router startup and frontend handlers
(`backend/mod.rs`, `backend/frontend_handlers/*.rs`) -/

/-- `await_frontend_ready` (`mod.rs:53-92`): the first command received on
the channel (`none` = channel closed).  Returns the bind address to start the
engine on (`none` = terminate without starting) and the events emitted.  A
non-`FrontendReady` first command emits `BackendFatal`; a closed channel only
logs.  (The `{:?}`-formatted offending event in the fatal text is elided.) -/
def await_frontend_ready (first : Option FrontendEvent) :
    Option RustString × List BackendEvent :=
  match first with
  | some (.FrontendReady cfg) => (some cfg.bind_addr, [])
  | some _ =>
    (none, [.BackendFatal (str "Unexpected event received from the frontend. " ++
      str "Expected: FrontendEvent::FrontendReady")])
  | none => (none, [])

/-- `FrontendManager::handle_frontend_ready` (`frontend_ready.rs:12-32`),
reached for any `FrontendReady` after the backend started: emit
`BadFrontendEvent` and ignore the event — no peer or transfer state changes. -/
def handle_frontend_ready (s : PMState) (backend_startup_config : BackendStartupConfig) :
    PMState × List BackendEvent :=
  (s, [.BadFrontendEvent (.FrontendReady backend_startup_config)
    (str "Backend is already running")])

/-- Results of the I/O and channel effects `handle_transmit_file` performs,
supplied by the environment. -/
structure TransmitFileEnv where
  /-- Result of `transmit_file.ip.parse()`. -/
  parsed_addr : Option SocketAddr
  /-- `File::open(&transmit_file.path)`: `none` = success, `some e` = the
  error text. -/
  open_err : Option RustString
  /-- `file.metadata()`: `none` = success, `some e` = the error text. -/
  metadata_err : Option RustString
  /-- `metadata.len()`. -/
  file_size : Nat
  /-- `Uuid::new_v4()`. -/
  fresh_id : Uuid
  /-- Whether `peer.tx.send(FileOfferRequest)` succeeded. -/
  send_ok : Bool

/-- `FrontendManager::handle_transmit_file` (`transmit_file.rs:20-139`):
parse the address (failure → `BadFrontendEvent`); open the file and read its
metadata (failure → `BadFrontendEvent`); `chunk_len = 1 MiB`, fresh id; if
the peer is present send `FileOfferRequest` and on send success insert a
sending transfer record — whose status the source sets to `InProgress`
(written without the `file_handle` field its declaration requires, and with
direction `Sending` written without its `file_path` field, filled here with
the command's path); on send failure `drop_peer`; if the peer is absent,
`BadFrontendEvent`. -/
def handle_transmit_file (env : TransmitFileEnv) (s : PMState)
    (transmit_file : frontend_event.TransmitFile) : HandlerOut :=
  match env.parsed_addr with
  | none =>
    ⟨s, [.BadFrontendEvent (.TransmitFile transmit_file) (str "Invalid IP address")], []⟩
  | some peer_addr =>
    match env.open_err with
    | some e =>
      ⟨s, [.BadFrontendEvent (.TransmitFile transmit_file)
        (str "Failed to open file: " ++ e)], []⟩
    | none =>
      match env.metadata_err with
      | some e =>
        ⟨s, [.BadFrontendEvent (.TransmitFile transmit_file)
          (str "Failed to get file metadata: " ++ e)], []⟩
      | none =>
        let size := env.file_size
        let chunk_len := 1024 * 1024
        let unique_id := env.fresh_id
        match s.active_peers peer_addr with
        | some _peer =>
          let offer : protocol.FileOffer :=
            { filename := transmit_file.filename, unique_id := unique_id,
              size := size, chunk_len := chunk_len }
          if env.send_ok then
            let record : FileTransferState :=
              { unique_id := unique_id,
                peer_addr := peer_addr,
                direction := .Sending transmit_file.path,
                filename := transmit_file.filename,
                total_size := size,
                bytes_transferred := 0,
                chunk_len := chunk_len,
                status := .InProgress () }
            let transfers1 := mapInsert s.active_transfers unique_id record
            ⟨{ s with active_transfers := transfers1 }, [],
              [(peer_addr, .FileOfferRequest offer)]⟩
          else
            let (s', evs) := drop_peer s peer_addr
              (some (str "Failed to send TransmitFile message to the peer"))
            ⟨s', evs, []⟩
        | none =>
          ⟨s, [.BadFrontendEvent (.TransmitFile transmit_file)
            (str "Peer " ++ peer_addr.toStr ++ str " is not connected")], []⟩

/-! ## Concrete fixtures used by witnesses and counterexamples -/

/-- A concrete peer address, `1.2.3.4:9100`. -/
def addr0 : SocketAddr := { ip := str "1.2.3.4", port := 9100 }

/-- A concrete remote peer identity. -/
def piB : PeerInfo := { name := str "B", backend_version := str "1.0.0" }

/-- A concrete wire identity. -/
def ciA : protocol.ConnectionInfo := { name := str "A", backend_version := str "1.0.0" }

/-- A concrete transfer id (16 bytes). -/
def tid0 : Uuid := [0, 1, 2, 3, 4, 5, 6, 7, 8, 9, 10, 11, 12, 13, 14, 15]

/-- The state with no peers and no transfers. -/
def pmEmpty : PMState := { active_peers := fun _ => none, active_transfers := fun _ => none }

/-- A state holding one `Authenticated` peer at `addr0`. -/
def pmAuth : PMState :=
  { active_peers := mapInsert (fun _ => none) addr0 { addr := addr0, state := .Authenticated piB },
    active_transfers := fun _ => none }

/-- A state holding one peer at `addr0` in `Connected` state with no stored
info. -/
def pmConnNone : PMState :=
  { active_peers := mapInsert (fun _ => none) addr0 { addr := addr0, state := .Connected none },
    active_transfers := fun _ => none }

/-- The file offer of the C4 failing input. -/
def offer0 : protocol.FileOffer :=
  { filename := str "x", unique_id := tid0, size := 3, chunk_len := 1 }

/-- The C5 failing input: address parses, file opens, metadata succeeds,
3 MiB file, fresh id `tid0`, outbox send succeeds. -/
def env5 : TransmitFileEnv :=
  { parsed_addr := some addr0, open_err := none, metadata_err := none,
    file_size := 3145728, fresh_id := tid0, send_ok := true }

/-- The C5 environment in which `File::open` fails. -/
def env5err : TransmitFileEnv :=
  { env5 with open_err := some (str "No such file or directory (os error 2)") }

/-- The C5 command. -/
def cmd5 : frontend_event.TransmitFile :=
  { ip := str "1.2.3.4:9100", path := str "/tmp/x", filename := str "x" }

/-! ## Claim theorems -/

/-- The state for the C8 counterexample: one `Authenticated` peer at `addr0`
and one transfer record referring to it. -/
def pmC8rec : FileTransferState :=
  { unique_id := tid0, peer_addr := addr0, direction := .Receiving,
    filename := str "x", total_size := 3, bytes_transferred := 0,
    chunk_len := 1, status := .WaitingForPeerResponse }

/-- One authenticated peer plus one transfer record bound to it. -/
def pmC8 : PMState :=
  { active_peers := mapInsert (fun _ => none) addr0 { addr := addr0, state := .Authenticated piB },
    active_transfers := mapInsert (fun _ => none) tid0 pmC8rec }

/-- The upward notifications `drop_peer` emits, as a function of the removed
peer's state (the shape the C1 claim describes). -/
def drop_peer_events (a : SocketAddr) (msg : Option RustString) :
    Option Peer → List BackendEvent
  | none => []
  | some p =>
    match p.state with
    | .Connected _ => []
    | .Authenticated info =>
      [.ConnectionBroken ⟨info.into_connection_info a, msg⟩]
    | .Disconnecting reason info =>
      [.ConnectionClose ⟨info.into_connection_info a,
        match msg with | some m => some m | none => reason⟩]

/-- C1: `drop_peer(address, override_reason)` removes exactly that address
from the registry and emits exactly one upward notification determined by the
removed peer's state — `ConnectionBroken(identity, override_reason)` when
`Authenticated`, `ConnectionClose` carrying the override reason or else the
stored `Disconnecting` reason when `Disconnecting`, nothing when `Connected`
— while a call on an absent address changes nothing and emits nothing, so a
second `drop_peer` on the same address emits nothing: at most one upward
notification per session lifetime. -/
theorem drop_peer_spec :
    (∀ s a msg, (drop_peer s a msg).1.active_peers a = none) ∧
    (∀ s a msg x, x ≠ a →
      (drop_peer s a msg).1.active_peers x = s.active_peers x) ∧
    (∀ s a msg, (drop_peer s a msg).2 =
      drop_peer_events a msg (s.active_peers a)) ∧
    (∀ s a msg, s.active_peers a = none → drop_peer s a msg = (s, [])) ∧
    (∀ s a msg msg', drop_peer (drop_peer s a msg).1 a msg' =
      ((drop_peer s a msg).1, [])) := by
  have hremove : ∀ s a msg,
      (drop_peer s a msg).1.active_peers = mapRemove s.active_peers a := by
    intro s a msg
    unfold drop_peer
    dsimp only
    split
    · split <;> rfl
    · rfl
  have habsent : ∀ (s : PMState) a msg, s.active_peers a = none →
      drop_peer s a msg = (s, []) := by
    intro s a msg h
    unfold drop_peer
    dsimp only
    rw [h]
    have hmap : mapRemove s.active_peers a = s.active_peers := by
      funext x
      unfold mapRemove
      split
      · next hx => rw [hx]; exact h.symm
      · rfl
    rw [hmap]
  refine ⟨?_, ?_, ?_, habsent, ?_⟩
  · intro s a msg
    rw [hremove]
    unfold mapRemove
    simp
  · intro s a msg x hx
    rw [hremove]
    unfold mapRemove
    simp [hx]
  · intro s a msg
    unfold drop_peer
    dsimp only
    split
    · rename_i removed heq
      simp only [heq, drop_peer_events]
      cases removed.state <;> rfl
    · rename_i heq
      simp [heq, drop_peer_events]
  · intro s a msg msg'
    apply habsent
    rw [hremove]
    unfold mapRemove
    simp

/-- Witness for C1: on the one-peer state, a second `drop_peer` of the same
address changes nothing and emits nothing. -/
theorem drop_peer_spec_witness :
    drop_peer (drop_peer pmAuth addr0 none).1 addr0 (some (str "again")) =
      ((drop_peer pmAuth addr0 none).1, []) :=
  drop_peer_spec.2.2.2.2 pmAuth addr0 none (some (str "again"))

/-- C2: encoding any well-formed `Message` (all twelve wire variants) with
the `BINCODE_CONFIG` codec (little-endian, variable-length integers) and
decoding the resulting bytes yields an equal value, consuming exactly the
encoded bytes. -/
theorem codec_roundtrip (m : Message) (h : m.wf) :
    decode_from_slice (encodeMessage m) = some (m, (encodeMessage m).length) :=
  decode_from_slice_encodeMessage m h

/-- Witness for C2 at a concrete `ConnectResponse` message. -/
theorem codec_roundtrip_witness :
    (Message.ConnectResponse
      { permit := .Permit ciA, message := some (str "hi") }).wf ∧
    decode_from_slice (encodeMessage (Message.ConnectResponse
      { permit := .Permit ciA, message := some (str "hi") })) =
      some (Message.ConnectResponse
        { permit := .Permit ciA, message := some (str "hi") },
        (encodeMessage (Message.ConnectResponse
          { permit := .Permit ciA, message := some (str "hi") })).length) :=
  ⟨by decide, codec_roundtrip _ (by decide)⟩

/-- C8 counterexample: with one `Authenticated` peer at `addr0` and one
transfer record whose `peer_addr` is `addr0`, `drop_peer` removes the peer
from the registry but the transfer record is still in the table afterwards —
the destruction of the peer's transfer records that the claim asserts does
not happen. -/
theorem drop_peer_keeps_transfer_counterexample :
    pmC8rec.peer_addr = addr0 ∧
    (drop_peer pmC8 addr0 none).1.active_peers addr0 = none ∧
    (drop_peer pmC8 addr0 none).1.active_transfers tid0 = some pmC8rec := by
  refine ⟨rfl, ?_, ?_⟩ <;> decide

/-- C8 (amended): `drop_peer` never touches the transfer table: every
transfer record — in particular every record whose `peer` field refers to
the dropped address — is still present, unchanged, after the peer
disconnects. -/
theorem drop_peer_preserves_transfers (s : PMState) (a : SocketAddr)
    (msg : Option RustString) :
    (drop_peer s a msg).1.active_transfers = s.active_transfers := by
  unfold drop_peer
  dsimp only
  split
  · split <;> rfl
  · rfl

/-- C10: for a peer present in the registry, each of the four chunk-transfer
messages makes `handle_message` hit the `todo!()` arm: the task aborts with
no `drop_peer` call, no registry change and no upward notification
(`StepResult.panicked` carries none of these). -/
theorem handle_message_chunk_panics (s : PMState) (peer_addr : SocketAddr)
    (_hpresent : ∃ p, s.active_peers peer_addr = some p) :
    (∀ c, handle_message s (.FileChunk c) peer_addr = .panicked) ∧
    (∀ a, handle_message s (.FileChunkAck a) peer_addr = .panicked) ∧
    (∀ d, handle_message s (.FileDone d) peer_addr = .panicked) ∧
    (∀ r, handle_message s (.FileDoneResult r) peer_addr = .panicked) :=
  ⟨fun _ => rfl, fun _ => rfl, fun _ => rfl, fun _ => rfl⟩

/-- Witness for C10: a concrete `FileChunk` from the authenticated peer
panics the dispatcher. -/
theorem handle_message_chunk_panics_witness :
    handle_message pmAuth
      (.FileChunk { unique_id := tid0, chunk_id := 0, chunk_len := 1, data := [7] })
      addr0 = .panicked :=
  (handle_message_chunk_panics pmAuth addr0
    ⟨{ addr := addr0, state := .Authenticated piB }, by decide⟩).1
    { unique_id := tid0, chunk_id := 0, chunk_len := 1, data := [7] }

/-- A maximal legal frame: a `FileChunk` whose encoding is exactly
`MAX_MESSAGE_SIZE` bytes (1 tag byte + 17 uuid bytes + 1 + 1 for the two
counters + 5 length-prefix bytes + 10485735 data bytes). -/
def maxFrameMsg : Message :=
  .FileChunk ⟨List.replicate 16 0, 0, 0, List.replicate 10485735 0⟩

theorem maxFrameMsg_wf : maxFrameMsg.wf := by
  unfold maxFrameMsg Message.wf Uuid.wf u64wf
  refine ⟨?_, by decide, by decide, ?_⟩ <;> simp only [List.length_replicate]
  omega

theorem maxFrameMsg_len : (encodeMessage maxFrameMsg).length = 1024 * 1024 * 10 := by
  have e1 : encodeMessage maxFrameMsg = encodeVarint 8 ++
      (encUuid (List.replicate 16 0) ++ (encodeVarint 0 ++ (encodeVarint 0 ++
        encBytes (List.replicate 10485735 0)))) := by
    simp only [maxFrameMsg, encodeMessage, encFC, List.append_assoc]
  rw [e1]
  simp only [encBytes, encUuid, List.length_replicate]
  rw [(by decide : encodeVarint 8 = [8]), (by decide : encodeVarint 16 = [16]),
    (by decide : encodeVarint 0 = [0]),
    (by decide : encodeVarint 10485735 = 252 :: w32 10485735)]
  rw [List.length_append, List.length_append, List.length_append,
    List.length_append, List.length_append, List.length_append,
    List.length_replicate, List.length_replicate]
  rfl

/-- C3: for an inbound frame with header value `len` and `len`-byte payload
`buf`, the reader calls `drop_peer` (with a diagnostic reason) exactly when
`len` exceeds `MAX_MESSAGE_SIZE = 10*1024*1024` (checked before the payload
buffer is allocated), when the payload fails to decode, or when decoding
consumes a number of bytes different from `len`; otherwise the decoded
message is dispatched.  In particular `len = 10*1024*1024 + 1` is always
rejected, and there is a full frame of exactly `10*1024*1024` bytes that is
dispatched. -/
theorem read_frame_contract :
    MAX_MESSAGE_SIZE = 10 * 1024 * 1024 ∧
    (∀ len buf m, process_inbound_frame len buf = .dispatched m ↔
      len ≤ MAX_MESSAGE_SIZE ∧ decode_from_slice buf = some (m, len)) ∧
    (∀ len buf, (∃ r, process_inbound_frame len buf = .dropped (some r)) ↔
      (MAX_MESSAGE_SIZE < len ∨ decode_from_slice buf = none ∨
        ∃ m k, decode_from_slice buf = some (m, k) ∧ k ≠ len)) ∧
    (∀ buf : List Nat, process_inbound_frame (10 * 1024 * 1024 + 1) buf =
      .dropped (some (str "Peer sent a message larger than the maximum size of " ++
        natStr MAX_MESSAGE_SIZE ++ str " bytes"))) ∧
    (∃ m buf, buf.length = 10 * 1024 * 1024 ∧
      process_inbound_frame (10 * 1024 * 1024) buf = .dispatched m) := by
  refine ⟨rfl, ?_, ?_, ?_, ?_⟩
  · intro len buf m
    unfold process_inbound_frame
    by_cases hlen : len > MAX_MESSAGE_SIZE
    · rw [if_pos hlen]
      constructor
      · intro h
        exact FrameStep.noConfusion h
      · rintro ⟨h1, _⟩
        omega
    · rw [if_neg hlen]
      rcases hd : decode_from_slice buf with _ | ⟨msg, k⟩ <;> dsimp only
      · constructor
        · intro h
          exact FrameStep.noConfusion h
        · rintro ⟨_, h2⟩
          exact Option.noConfusion h2
      · by_cases hk : k ≠ len
        · rw [if_pos hk]
          constructor
          · intro h
            exact FrameStep.noConfusion h
          · rintro ⟨_, h2⟩
            simp only [Option.some.injEq, Prod.mk.injEq] at h2
            exact absurd h2.2 hk
        · rw [if_neg hk]
          push_neg at hk
          subst hk
          constructor
          · intro h
            injection h with h
            subst h
            exact ⟨by omega, rfl⟩
          · rintro ⟨_, h2⟩
            simp only [Option.some.injEq, Prod.mk.injEq] at h2
            rw [h2.1]
  · intro len buf
    unfold process_inbound_frame
    by_cases hlen : len > MAX_MESSAGE_SIZE
    · rw [if_pos hlen]
      constructor
      · intro
        left
        omega
      · intro
        exact ⟨_, rfl⟩
    · rw [if_neg hlen]
      rcases hd : decode_from_slice buf with _ | ⟨msg, k⟩ <;> dsimp only
      · constructor
        · intro
          right
          left
          rfl
        · intro
          exact ⟨_, rfl⟩
      · by_cases hk : k ≠ len
        · rw [if_pos hk]
          constructor
          · intro
            right
            right
            exact ⟨msg, k, rfl, hk⟩
          · intro
            exact ⟨_, rfl⟩
        · rw [if_neg hk]
          push_neg at hk
          constructor
          · rintro ⟨r, hr⟩
            exact FrameStep.noConfusion hr
          · rintro (h | h | ⟨m, k', hk', hne⟩)
            · omega
            · exact Option.noConfusion h
            · simp only [Option.some.injEq, Prod.mk.injEq] at hk'
              exact absurd (hk'.2.symm.trans hk) hne
  · intro buf
    unfold process_inbound_frame
    rw [if_pos (by unfold MAX_MESSAGE_SIZE; omega)]
  · refine ⟨maxFrameMsg, encodeMessage maxFrameMsg, maxFrameMsg_len, ?_⟩
    unfold process_inbound_frame
    rw [if_neg (by unfold MAX_MESSAGE_SIZE; omega),
      decode_from_slice_encodeMessage maxFrameMsg maxFrameMsg_wf,
      maxFrameMsg_len]
    dsimp only
    rw [if_neg (by omega)]

/-- C9: the router's first received command must be `FrontendReady`: on
`FrontendReady(bind_addr)` the engine is started on that address with no
event emitted, on any other first command a `BackendFatal` is emitted and
the engine is not started; once running, a later `FrontendReady` emits one
`BadFrontendEvent` ("Backend is already running") and changes no state. -/
theorem router_startup_handshake :
    (∀ cfg, await_frontend_ready (some (.FrontendReady cfg)) =
      (some cfg.bind_addr, [])) ∧
    (∀ e : FrontendEvent, (∀ cfg, e ≠ .FrontendReady cfg) →
      (await_frontend_ready (some e)).1 = none ∧
      ∃ msg, (await_frontend_ready (some e)).2 = [.BackendFatal msg]) ∧
    (∀ s cfg, handle_frontend_ready s cfg =
      (s, [.BadFrontendEvent (.FrontendReady cfg)
        (str "Backend is already running")])) := by
  refine ⟨fun _ => rfl, ?_, fun _ _ => rfl⟩
  intro e he
  cases e with
  | FrontendReady cfg => exact absurd rfl (he cfg)
  | ConnectRequest ip => exact ⟨rfl, _, rfl⟩
  | DisconnectRequest ip m => exact ⟨rfl, _, rfl⟩
  | ConnectionRequestResponse ip a m => exact ⟨rfl, _, rfl⟩
  | TransmitFile t => exact ⟨rfl, _, rfl⟩
  | FileOfferResponse u a => exact ⟨rfl, _, rfl⟩
  | CancelFileTransfer u m => exact ⟨rfl, _, rfl⟩
  | Shutdown => exact ⟨rfl, _, rfl⟩

/-- Witness for C9: a first command of `Shutdown` does not start the engine
and emits a `BackendFatal`. -/
theorem router_startup_handshake_witness :
    (await_frontend_ready (some .Shutdown)).1 = none ∧
    ∃ msg, (await_frontend_ready (some .Shutdown)).2 = [.BackendFatal msg] :=
  router_startup_handshake.2.1 .Shutdown (fun _ h => FrontendEvent.noConfusion h)

/-- C6 counterexample input: an `Authenticated` peer receives a
`ConnectRequest`.  The claim says the peer is dropped; the code instead
downgrades it to `Connected` with the new info, keeps it in the registry and
enqueues a `KeepAlive`. -/
theorem connect_request_authenticated_counterexample :
    (handle_connect_request pmAuth ciA addr0).state.active_peers addr0 =
      some { addr := addr0,
             state := .Connected (some (PeerInfo.ofConnectionInfo ciA)) } ∧
    (handle_connect_request pmAuth ciA addr0).sent = [(addr0, .KeepAlive)] := by
  constructor <;> decide

/-- C6 (amended): on an inbound `ConnectRequest(info)` the UI is notified
unconditionally; if the peer is present — in any state, `Connected`,
`Authenticated` or `Disconnecting` — its state is set to `Connected` with the
received info and a `KeepAlive` is enqueued; the peer is never dropped from
the registry and the transfer table is untouched. -/
theorem handle_connect_request_spec (s : PMState) (ci : protocol.ConnectionInfo)
    (a : SocketAddr) :
    (handle_connect_request s ci a).events =
      [.ConnectRequest { name := ci.name, ip := a.toStr,
                         backend_version := ci.backend_version }] ∧
    (handle_connect_request s ci a).state.active_peers =
      mapAdjust s.active_peers a (fun p =>
        { p with state := .Connected (some (PeerInfo.ofConnectionInfo ci)) }) ∧
    (handle_connect_request s ci a).state.active_transfers = s.active_transfers ∧
    ((handle_connect_request s ci a).sent =
      match s.active_peers a with
      | some _ => [(a, .KeepAlive)]
      | none => []) ∧
    (∀ x, ((handle_connect_request s ci a).state.active_peers x).isSome =
      (s.active_peers x).isSome) := by
  refine ⟨rfl, rfl, rfl, rfl, ?_⟩
  intro x
  show (mapAdjust s.active_peers a _ x).isSome = _
  unfold mapAdjust
  split
  · next hx =>
    subst hx
    cases s.active_peers x <;> rfl
  · rfl

/-- The registry of `pmConnNone` after its no-info peer is authenticated
from the identity carried in the message. -/
def pmConnNoneAuthPeers : SocketAddr → Option Peer :=
  mapAdjust pmConnNone.active_peers addr0 (fun p =>
    { p with state := .Authenticated (PeerInfo.ofConnectionInfo ciA) })

/-- C7 counterexample input: a peer in `Connected` state with no stored
`peer_info` receives `ConnectResponse(Permit, info)`.  The claim says the
peer is dropped; instead the handler completes normally, authenticating the
peer with the identity carried in the message and notifying the UI with
`accept = true` — afterwards the peer is still in the registry, now
`Authenticated`. -/
theorem connect_response_permit_noinfo_counterexample :
    handle_connect_response pmConnNone
        { permit := .Permit ciA, message := none } addr0 =
      .ok { state := { pmConnNone with active_peers := pmConnNoneAuthPeers },
            events := [.ConnectionRequestResponse
              { accept := true, ip := addr0.toStr, reason := none }],
            sent := [] } ∧
    pmConnNoneAuthPeers addr0 =
      some { addr := addr0, state := .Authenticated (PeerInfo.ofConnectionInfo ciA) } :=
  ⟨rfl, by decide⟩

/-- C7 (amended): on `ConnectResponse(Permit, info)`, a peer in any
`Connected` state — with or without stored `peer_info` — transitions to
`Authenticated` with the identity carried in the message and
`ConnectionRequestResponse(accept=true)` is notified; for a peer in
`Authenticated` or `Disconnecting` state the handler reaches its `drop_peer`
call while still holding the registry guard, and the task deadlocks on the
re-locked mutex: the peer is never removed from the registry and no
notification is ever emitted. -/
theorem handle_connect_response_permit_spec :
    (∀ s a (iden : protocol.ConnectionInfo) m p pi,
      s.active_peers a = some p → p.state = .Connected pi →
      handle_connect_response s { permit := .Permit iden, message := m } a =
        .ok { state := { s with active_peers := mapAdjust s.active_peers a (fun q =>
                { q with state := .Authenticated (PeerInfo.ofConnectionInfo iden) }) },
              events := [.ConnectionRequestResponse
                { accept := true, ip := a.toStr, reason := none }],
              sent := [] }) ∧
    (∀ s a (iden : protocol.ConnectionInfo) m p info,
      s.active_peers a = some p → p.state = .Authenticated info →
      handle_connect_response s { permit := .Permit iden, message := m } a =
        .deadlocked s [] []) ∧
    (∀ s a (iden : protocol.ConnectionInfo) m p r info,
      s.active_peers a = some p → p.state = .Disconnecting r info →
      handle_connect_response s { permit := .Permit iden, message := m } a =
        .deadlocked s [] []) := by
  refine ⟨?_, ?_, ?_⟩
  · intro s a iden m p pi h1 h2
    unfold handle_connect_response
    rw [h1]
    dsimp only
    rw [h2]
  · intro s a iden m p info h1 h2
    unfold handle_connect_response
    rw [h1]
    dsimp only
    rw [h2]
  · intro s a iden m p r info h1 h2
    unfold handle_connect_response
    rw [h1]
    dsimp only
    rw [h2]

/-- Witness for the C7 amended theorem: an `Authenticated` peer receiving a
`Permit` deadlocks the handler — the registry is left as it was and nothing
is emitted. -/
theorem handle_connect_response_permit_spec_witness :
    handle_connect_response pmAuth { permit := .Permit ciA, message := none } addr0 =
      .deadlocked pmAuth [] [] :=
  handle_connect_response_permit_spec.2.1 pmAuth addr0 ciA none
    { addr := addr0, state := .Authenticated piB } piB (by decide) rfl

/-- C4: evaluating `handle_file_offer_request` at the failing input — an
inbound `FileOfferRequest` from an `Authenticated` peer — shows the inserted
receiving record has `bytes_transferred = 0` but status `InProgress`, not the
`WaitingForPeerResponse` the claim states, while the `FileOffer` notification
is emitted as claimed. -/
theorem file_offer_request_sets_in_progress :
    (handle_file_offer_request pmAuth offer0 addr0).state.active_transfers tid0 =
      some { unique_id := tid0, peer_addr := addr0, direction := .Receiving,
             filename := str "x", total_size := 3, bytes_transferred := 0,
             chunk_len := 1, status := .InProgress () } ∧
    FileTransferStatus.InProgress () ≠ .WaitingForPeerResponse ∧
    (handle_file_offer_request pmAuth offer0 addr0).events =
      [.FileOffer { peer := PeerInfo.into_connection_info piB addr0,
                    filename := str "x", unique_id := uuidStr tid0, size := 3 }] := by
  refine ⟨?_, by decide, ?_⟩ <;> decide

/-- C5: evaluating `handle_transmit_file` at the failing input — peer
present, file opened successfully — shows the offer is enqueued with
`chunk_len = 1 MiB` and the fresh id, and the inserted sending record has
`bytes_transferred = 0` but status `InProgress`, not the
`WaitingForPeerResponse` the claim states; when opening the source file
fails, a `BadFrontendEvent` is emitted and no record is created, as the
claim states. -/
theorem transmit_file_sets_in_progress :
    (handle_transmit_file env5 pmAuth cmd5).state.active_transfers tid0 =
      some { unique_id := tid0, peer_addr := addr0,
             direction := .Sending (str "/tmp/x"), filename := str "x",
             total_size := 3145728, bytes_transferred := 0,
             chunk_len := 1024 * 1024, status := .InProgress () } ∧
    FileTransferStatus.InProgress () ≠ .WaitingForPeerResponse ∧
    (handle_transmit_file env5 pmAuth cmd5).sent =
      [(addr0, .FileOfferRequest { filename := str "x", unique_id := tid0,
                                   size := 3145728, chunk_len := 1024 * 1024 })] ∧
    handle_transmit_file env5err pmAuth cmd5 =
      ⟨pmAuth, [.BadFrontendEvent (.TransmitFile cmd5)
        (str "Failed to open file: " ++ str "No such file or directory (os error 2)")],
        []⟩ := by
  refine ⟨by decide, by decide, by decide, rfl⟩
